import Mathlib

/-!
Verification of the PowerPlatform MCP server repository
(`powerplatform_service.py`, `powerplatform_mcp_server.py`).

The Python code is shallowly embedded as executable Lean definitions.
Python strings are modelled by `String`, with the character-based
operations (`str.endswith`, `str.startswith`, `len`, slicing,
`str.replace`, `in`) modelled over `String.data : List Char`; this
matches Python semantics, which are code-point based.

JSON objects returned by the Dataverse Web API are modelled by typed
records carrying the fields the code reads (each a `Option String`,
`none` standing for an absent key) plus an association-list payload for
all remaining keys.  JSON documents with nested objects are modelled by
`MetaVal` / `MetaFields`.
-/

/-- Python `len(s)`: number of code points. -/
def pyLen (s : String) : Nat := s.data.length

/-- Python `s.endswith(suffix)`. -/
def pyEndsWith (s suffix : String) : Bool := suffix.data.isSuffixOf s.data

/-- Python `s.startswith(pre)`. -/
def pyStartsWith (s pre : String) : Bool := pre.data.isPrefixOf s.data

/-- Python `sub in s` (substring containment). -/
def strContainsList (pat : List Char) : List Char → Bool
  | [] => pat.isEmpty
  | c :: rest => pat.isPrefixOf (c :: rest) || strContainsList pat rest

/-- Python `sub in s` at the `String` level. -/
def strContains (s sub : String) : Bool := strContainsList sub.data s.data

/-- Python slicing `s[:-4]` (drop the last four code points). -/
def dropLast4 (s : String) : String := ⟨s.data.take (s.data.length - 4)⟩

/-- Python truthiness of an optional string (`None` and `""` are falsy). -/
def pyTruthy : Option String → Bool
  | none => false
  | some s => !(s == "")

/-- Python `s.replace(pat, rep)` over char lists with explicit fuel
(structural recursion so that concrete renderings reduce in the kernel):
replace every non-overlapping occurrence, scanning left to right.  Each
step consumes at least one character, so fuel equal to the list length
never runs out. -/
def replaceListAux (pat rep : List Char) : Nat → List Char → List Char
  | 0, l => l
  | _ + 1, [] => []
  | fuel + 1, c :: rest =>
    if !pat.isEmpty && pat.isPrefixOf (c :: rest) then
      rep ++ replaceListAux pat rep fuel ((c :: rest).drop pat.length)
    else
      c :: replaceListAux pat rep fuel rest

/-- Python `s.replace(pat, rep)` over char lists.  (All call sites in
the source use a non-empty literal pattern; for an empty pattern this
definition is the identity, unlike Python.) -/
def replaceList (pat rep l : List Char) : List Char :=
  replaceListAux pat rep l.length l

/-- Python `s.replace(pat, rep)` at the `String` level. -/
def pyReplace (s pat rep : String) : String := ⟨replaceList pat.data rep.data s.data⟩

/-!  ## Attribute model and `get_entity_attributes` shaping
(`powerplatform_service.py`, lines 86-127). -/

/-- One element of the `Attributes` `value` array: a JSON object whose
`LogicalName` key may be absent, with the remaining keys kept as an
association list (needed only to distinguish attributes and to model
`attribute.get("@odata.type", ...)`). -/
structure Attribute where
  logicalName : Option String
  payload : List (String × String) := []
deriving DecidableEq

/-- Python `attribute.get("LogicalName", "")`. -/
def Attribute.lnD (a : Attribute) : String := a.logicalName.getD ""

/-- First pass of `get_entity_attributes`: drop every attribute whose
logical name ends with `yominame`. -/
def filterYomi (attrs : List Attribute) : List Attribute :=
  attrs.filter (fun a => !(pyEndsWith a.lnD "yominame"))

/-- The test `logical_name.endswith("name") and len(logical_name) > 4`
used to classify an attribute as a `...name` shadow candidate. -/
def isNameSuffixed (s : String) : Bool :=
  pyEndsWith s "name" && decide (4 < pyLen s)

/-- The `base_names` set built in the second pass: logical names of
attributes that are not `...name`-suffixed (the `else` branch). -/
def baseNames (attrs : List Attribute) : List String :=
  (attrs.filter (fun a => !(isNameSuffixed a.lnD))).map (·.lnD)

/-- The `attributes_to_remove` set: logical names of `...name`-suffixed
attributes whose stripped base name occurs in `base_names`.  (The Python
code stores one representative per base name in a dict, but since the
logical name of any such attribute is `base + "name"`, the resulting set
of removed names is exactly this one.) -/
def attributesToRemove (attrs : List Attribute) : List String :=
  (attrs.filter
    (fun a => isNameSuffixed a.lnD && (baseNames attrs).contains (dropLast4 a.lnD))).map
    (·.lnD)

/-- Second pass: keep `attribute` iff
`attribute.get("LogicalName") not in attributes_to_remove`
(an attribute with no `LogicalName` key yields Python `None`, which is
never in the set of removed names). -/
def filterNameShadows (attrs : List Attribute) : List Attribute :=
  attrs.filter (fun a =>
    match a.logicalName with
    | none => true
    | some s => !((attributesToRemove attrs).contains s))

/-- The full shaping applied to the `value` array by
`get_entity_attributes`. -/
def shape_attributes (attrs : List Attribute) : List Attribute :=
  filterNameShadows (filterYomi attrs)

/-- The fetched `Attributes` response document: its optional `value`
array plus all other keys (passed through untouched). -/
structure AttributesDoc where
  value : Option (List Attribute)
  rest : List (String × String) := []
deriving DecidableEq

/-- `get_entity_attributes` post-processing of the fetched document:
if a `value` array is present, replace it by the shaped list; an absent
`value` (or a falsy response) leaves the document unchanged. -/
def get_entity_attributes_shape (d : AttributesDoc) : AttributesDoc :=
  match d.value with
  | none => d
  | some attrs => { d with value := some (shape_attributes attrs) }

/-- Python `response.get("value", [])` on an attributes document. -/
def AttributesDoc.valueD (d : AttributesDoc) : List Attribute := d.value.getD []

/-!  ## Relationship model and shaping
(`powerplatform_service.py`, lines 135-190). -/

/-- One element of the `OneToManyRelationships` `value` array. -/
structure OneToManyRel where
  schemaName : Option String
  referencingEntity : Option String
  referencedEntity : Option String
  payload : List (String × String) := []
deriving DecidableEq

/-- Python `relationship.get("ReferencingEntity", "")`. -/
def OneToManyRel.refD (r : OneToManyRel) : String := r.referencingEntity.getD ""

/-- The filter applied by `get_entity_one_to_many_relationships`: keep a
relationship unless its referencing entity starts with `msdyn_` or
`adx_`. -/
def filterO2M (rels : List OneToManyRel) : List OneToManyRel :=
  rels.filter (fun r =>
    !(pyStartsWith r.refD "msdyn_" || pyStartsWith r.refD "adx_"))

/-- The fetched `OneToManyRelationships` response document. -/
structure OneToManyDoc where
  value : Option (List OneToManyRel)
  rest : List (String × String) := []
deriving DecidableEq

/-- `get_entity_one_to_many_relationships` post-processing: filter the
`value` array when present, otherwise return the document unchanged. -/
def get_entity_one_to_many_shape (d : OneToManyDoc) : OneToManyDoc :=
  match d.value with
  | none => d
  | some rels => { d with value := some (filterO2M rels) }

/-- Python `response.get("value", [])` on a one-to-many document. -/
def OneToManyDoc.valueD (d : OneToManyDoc) : List OneToManyRel := d.value.getD []

/-- One element of the `ManyToManyRelationships` `value` array. -/
structure ManyToManyRel where
  schemaName : Option String
  entity1LogicalName : Option String
  entity2LogicalName : Option String
  payload : List (String × String) := []
deriving DecidableEq

/-- The fetched `ManyToManyRelationships` response document.
`get_entity_many_to_many_relationships` applies no post-processing to
it. -/
structure ManyToManyDoc where
  value : Option (List ManyToManyRel)
  rest : List (String × String) := []
deriving DecidableEq

/-- Python `response.get("value", [])` on a many-to-many document. -/
def ManyToManyDoc.valueD (d : ManyToManyDoc) : List ManyToManyRel := d.value.getD []

/-!  ## Nested JSON values for metadata documents. -/

mutual
/-- A JSON value as read by the prompt handlers: string, integer,
boolean, null, or nested object. -/
inductive MetaVal where
  | s (v : String)
  | i (n : Int)
  | b (v : Bool)
  | vnull
  | obj (fields : MetaFields)
/-- The fields of a nested JSON object. -/
inductive MetaFields where
  | fnil
  | fcons (key : String) (val : MetaVal) (rest : MetaFields)
end

/-- Key lookup in a nested object. -/
def MetaFields.lookup : MetaFields → String → Option MetaVal
  | .fnil, _ => none
  | .fcons k v rest, key => if k == key then some v else rest.lookup key

/-- A top-level JSON document: an association list of keys to values
(Python dict; keys are unique in every document the provider returns). -/
def MetaDoc := List (String × MetaVal)

/-- Python `doc.get(k)` on a top-level document. -/
def metaLookup (d : MetaDoc) (k : String) : Option MetaVal :=
  (d.find? (fun kv => kv.1 == k)).map (·.2)

/-- Python `doc.get(k, default)` on a top-level document. -/
def metaGetD (d : MetaDoc) (k : String) (dflt : MetaVal) : MetaVal :=
  (metaLookup d k).getD dflt

/-- Python `value.get(k, default)`: on a non-dict value, `.get` raises
`AttributeError`. -/
def MetaVal.getD? (v : MetaVal) (k : String) (dflt : MetaVal) : Except String MetaVal :=
  match v with
  | .obj fs => .ok ((fs.lookup k).getD dflt)
  | _ => .error "AttributeError: object has no attribute get"

/-- Python `doc.get(k1, {}).get(k2, {}).get(k3, dflt)`, the nested label
lookup pattern used by the prompt handlers. -/
def metaChain3 (d : MetaDoc) (k1 k2 k3 : String) (dflt : MetaVal) : Except String MetaVal := do
  let v1 := metaGetD d k1 (.obj .fnil)
  let v2 ← v1.getD? k2 (.obj .fnil)
  v2.getD? k3 dflt

mutual
/-- Python `str(value)` as used inside f-strings.  (For nested dicts this
is a deterministic stand-in for Python's dict repr; no claim depends on
the exact text of a rendered dict.) -/
def MetaVal.render : MetaVal → String
  | .s v => v
  | .i n => toString n
  | .b true => "True"
  | .b false => "False"
  | .vnull => "None"
  | .obj fs => "\x7b" ++ MetaFields.render fs ++ "\x7d"
/-- Field-list part of `MetaVal.render`. -/
def MetaFields.render : MetaFields → String
  | .fnil => ""
  | .fcons k v rest =>
    "\x27" ++ k ++ "\x27: " ++ MetaVal.render v ++ ", " ++ MetaFields.render rest
end

/-- Python `str(doc.get(k))` where the key may be absent
(`str(None) = "None"`). -/
def pyStrOpt : Option MetaVal → String
  | none => "None"
  | some v => v.render

/-- A deterministic stand-in for `json.dumps(doc, indent=2)`.  No claim
depends on its exact text, only on it being a fixed function of the
document. -/
def dumpMetaDoc (d : List (String × MetaVal)) : String :=
  "\x7b" ++
    String.intercalate ", " (d.map (fun kv => "\x22" ++ kv.1 ++ "\x22: " ++ kv.2.render)) ++
    "\x7d"

/-!  ## `get_entity_metadata` shaping
(`powerplatform_service.py`, lines 76-84). -/

/-- `get_entity_metadata` post-processing: delete the `Privileges` key if
present, pass every other key through.  (Python `del` on a dict removes
the unique entry with that key; on an association list with unique keys
this filter is the same operation, and it is total even without the
uniqueness invariant.) -/
def shape_entity_metadata {α : Type} (doc : List (String × α)) : List (String × α) :=
  doc.filter (fun kv => !(kv.1 == "Privileges"))

/-!  ## Token cache
(`powerplatform_service.py`, lines 14-53). -/

/-- The mutable token state of `PowerPlatformService`:
`self.access_token` (initially `None`) and `self.token_expiration_time`
(a timestamp in seconds, initially `0`). -/
structure ServiceState where
  access_token : Option String
  token_expiration_time : Int
deriving DecidableEq

/-- The document returned by
`msal_client.acquire_token_for_client(scopes=...)`: `none` models a
falsy result, and each field is `none` when the corresponding key is
absent. -/
structure MsalResult where
  access_token : Option String
  expires_in : Option Int
deriving DecidableEq

/-- Decidable equality for `Except`, needed to evaluate concrete
outcomes in the theorems below. -/
instance {ε α : Type} [DecidableEq ε] [DecidableEq α] : DecidableEq (Except ε α) := fun x y =>
  match x, y with
  | .ok a, .ok b =>
    if h : a = b then .isTrue (by rw [h]) else .isFalse (by simp [h])
  | .error a, .error b =>
    if h : a = b then .isTrue (by rw [h]) else .isFalse (by simp [h])
  | .ok _, .error _ => .isFalse (by simp)
  | .error _, .ok _ => .isFalse (by simp)

/-- The observable outcome of one `get_access_token()` call: the token
or the raised error, the updated state, and whether a request was
issued to the identity provider. -/
structure TokenFetch where
  result : Except String String
  state : ServiceState
  issuedRequest : Bool
deriving DecidableEq

/-- The refresh path of `get_access_token`: call the MSAL client; on a
falsy result or a result without `access_token`, raise
`Exception("Authentication failed")` and leave the cache untouched;
otherwise store the token and, when `expires_in` is present, set
`token_expiration_time = current_time + expires_in - 5 * 60`. -/
def acquireToken (st : ServiceState) (now : Int) (acquire : Option MsalResult) : TokenFetch :=
  match acquire with
  | none => ⟨.error "Authentication failed", st, true⟩
  | some res =>
    match res.access_token with
    | none => ⟨.error "Authentication failed", st, true⟩
    | some tok =>
      let st1 : ServiceState := { st with access_token := some tok }
      let st2 : ServiceState :=
        match res.expires_in with
        | some e => { st1 with token_expiration_time := now + e - 5 * 60 }
        | none => st1
      ⟨.ok tok, st2, true⟩

/-- `PowerPlatformService.get_access_token`: if a truthy cached token
exists and `token_expiration_time > current_time`, return it with no
request issued; otherwise refresh. -/
def get_access_token (st : ServiceState) (now : Int) (acquire : Option MsalResult) : TokenFetch :=
  match st.access_token with
  | some tok =>
    if tok ≠ "" ∧ now < st.token_expiration_time then ⟨.ok tok, st, false⟩
    else acquireToken st now acquire
  | none => acquireToken st now acquire

/-!  ## Configuration and service construction
(`powerplatform_mcp_server.py`, lines 12-45). -/

/-- `PowerPlatformConfig`: the four environment-derived fields; an unset
environment variable yields the empty string. -/
structure PowerPlatformConfig where
  organization_url : String
  client_id : String
  client_secret : String
  tenant_id : String
deriving DecidableEq

/-- The `missing_config` list computed by `get_powerplatform_service`
(a falsy, i.e. empty, field is missing). -/
def configMissing (c : PowerPlatformConfig) : List String :=
  (if c.organization_url == "" then ["organization_url"] else []) ++
  (if c.client_id == "" then ["client_id"] else []) ++
  (if c.client_secret == "" then ["client_secret"] else []) ++
  (if c.tenant_id == "" then ["tenant_id"] else [])

/-- `get_powerplatform_service`: raise when any configuration field is
missing, otherwise yield the service.  (The process-wide singleton is
not modelled; every run behaves like the first construction, which is
when the check runs.  Constructing the MSAL client issues no request.) -/
def get_powerplatform_service (c : PowerPlatformConfig) : Except String Unit :=
  match configMissing c with
  | [] => .ok ()
  | ms =>
    .error ("Missing PowerPlatform configuration: " ++ String.intercalate ", " ms ++
      ". Set these in environment variables.")

/-!  ## Percent-encoding (`urllib.parse.quote` with default safe chars). -/

/-- Uppercase hexadecimal digit. -/
def hexDigitChar (n : Nat) : Char := if n < 10 then Char.ofNat (48 + n) else Char.ofNat (55 + n)

/-- `%XX` encoding of one byte. -/
def percentByte (b : Nat) : List Char := ['%', hexDigitChar (b / 16), hexDigitChar (b % 16)]

/-- UTF-8 bytes of one code point. -/
def utf8Bytes (c : Char) : List Nat :=
  let n := c.toNat
  if n < 128 then [n]
  else if n < 2048 then [192 + n / 64, 128 + n % 64]
  else if n < 65536 then [224 + n / 4096, 128 + n / 64 % 64, 128 + n % 64]
  else [240 + n / 262144, 128 + n / 4096 % 64, 128 + n / 64 % 64, 128 + n % 64]

/-- Characters `urllib.parse.quote` leaves unescaped (ASCII letters,
digits, `_.-~` and the default safe character `/`). -/
def quoteSafeChar (c : Char) : Bool :=
  c.isAlpha || c.isDigit || c == '_' || c == '.' || c == '-' || c == '~' || c == '/'

/-- `urllib.parse.quote(s)`. -/
def pyQuote (s : String) : String :=
  ⟨s.data.foldr
    (fun c acc =>
      (if quoteSafeChar c then [c] else (utf8Bytes c).foldr (fun b a => percentByte b ++ a) []) ++
        acc)
    []⟩

/-!  ## The request/response oracle and the service computation monad.

One tool invocation is modelled as a function of the service state and
a log of outbound calls.  The responses of the external collaborators
(identity provider, Dataverse Web API) are supplied by an `Oracle`; the
log records, in order, the token-acquisition request (entry
`acquire_token`) and every Dataverse GET (entry = the endpoint path the
code builds), so that "no outbound network call" is `log = []`. -/

/-- The records-query response document: its `value` array is a list of
JSON records. -/
structure QueryDoc where
  value : Option (List (List (String × MetaVal)))
  rest : List (String × String) := []

/-- Responses of the external collaborators for one invocation:
`acquire` is what `acquire_token_for_client` returns, and each remaining
field is the outcome of the single GET the corresponding service method
issues (`.error` models a non-2xx status or transport failure). -/
structure Oracle where
  acquire : Option MsalResult
  entityMetadata : Except String (List (String × MetaVal))
  entityAttributes : Except String AttributesDoc
  entityAttribute : Except String (List (String × MetaVal))
  oneToMany : Except String OneToManyDoc
  manyToMany : Except String ManyToManyDoc
  globalOptionSet : Except String (List (String × MetaVal))
  record : Except String (List (String × MetaVal))
  query : Except String QueryDoc

/-- Everything one invocation reads from the process: the configuration,
the token-cache state at the start of the invocation, the current time
and the collaborators' responses. -/
structure Env where
  config : PowerPlatformConfig
  state : ServiceState
  now : Int
  oracle : Oracle

/-- The service computation monad: state = token cache, writer = log of
outbound calls, exceptions = Python exceptions (as strings). -/
def SM (α : Type) : Type :=
  ServiceState → List String → Except String α × ServiceState × List String

/-- Return. -/
def SM.pure {α : Type} (a : α) : SM α := fun st log => (.ok a, st, log)

/-- Sequencing; an exception short-circuits. -/
def SM.bind {α β : Type} (x : SM α) (f : α → SM β) : SM β := fun st log =>
  match x st log with
  | (.ok a, st1, log1) => f a st1 log1
  | (.error e, st1, log1) => (.error e, st1, log1)

/-- Raise. -/
def SM.throw {α : Type} (e : String) : SM α := fun st log => (.error e, st, log)

/-- Lift a pure `Except` computation. -/
def SM.liftE {α : Type} (x : Except String α) : SM α := fun st log => (x, st, log)

/-- `PowerPlatformService.make_request(endpoint)`: acquire a token
(logging `acquire_token` when a request to the identity provider is
issued), then issue the GET (logging the endpoint); any failure is
re-raised as `PowerPlatform API request failed: ...`. -/
def make_request {α : Type} (env : Env) (endpoint : String) (fetch : Except String α) :
    SM α := fun st log =>
  let tr := get_access_token st env.now env.oracle.acquire
  let log1 := log ++ (if tr.issuedRequest then ["acquire_token"] else [])
  match tr.result with
  | .error e => (.error ("PowerPlatform API request failed: " ++ e), tr.state, log1)
  | .ok _ =>
    match fetch with
    | .ok d => (.ok d, tr.state, log1 ++ [endpoint])
    | .error e => (.error ("PowerPlatform API request failed: " ++ e), tr.state, log1 ++ [endpoint])

/-- `PowerPlatformService.get_entity_metadata`. -/
def svc_get_entity_metadata (env : Env) (entity_name : String) : SM MetaDoc :=
  SM.bind
    (make_request env
      ("api/data/v9.2/EntityDefinitions(LogicalName=\x27" ++ entity_name ++ "\x27)")
      env.oracle.entityMetadata)
    (fun doc => SM.pure (shape_entity_metadata doc))

/-- `PowerPlatformService.get_entity_attributes`. -/
def svc_get_entity_attributes (env : Env) (entity_name : String) : SM AttributesDoc :=
  SM.bind
    (make_request env
      ("api/data/v9.2/EntityDefinitions(LogicalName=\x27" ++ entity_name ++
        "\x27)/Attributes?$select=LogicalName&$filter=AttributeType ne \x27Virtual\x27")
      env.oracle.entityAttributes)
    (fun doc => SM.pure (get_entity_attributes_shape doc))

/-- `PowerPlatformService.get_entity_attribute` (no post-processing). -/
def svc_get_entity_attribute (env : Env) (entity_name attribute_name : String) : SM MetaDoc :=
  make_request env
    ("api/data/v9.2/EntityDefinitions(LogicalName=\x27" ++ entity_name ++
      "\x27)/Attributes(LogicalName=\x27" ++ attribute_name ++ "\x27)")
    env.oracle.entityAttribute

/-- The `select_properties` list of `get_entity_one_to_many_relationships`. -/
def selectO2M : List String :=
  ["SchemaName", "RelationshipType", "ReferencedAttribute", "ReferencedEntity",
   "ReferencingAttribute", "ReferencingEntity", "ReferencedEntityNavigationPropertyName",
   "ReferencingEntityNavigationPropertyName"]

/-- `PowerPlatformService.get_entity_one_to_many_relationships`. -/
def svc_get_entity_one_to_many_relationships (env : Env) (entity_name : String) :
    SM OneToManyDoc :=
  SM.bind
    (make_request env
      ("api/data/v9.2/EntityDefinitions(LogicalName=\x27" ++ entity_name ++
        "\x27)/OneToManyRelationships?$select=" ++ String.intercalate "," selectO2M ++
        "&$filter=ReferencingAttribute ne \x27regardingobjectid\x27")
      env.oracle.oneToMany)
    (fun doc => SM.pure (get_entity_one_to_many_shape doc))

/-- The `select_properties` list of `get_entity_many_to_many_relationships`. -/
def selectM2M : List String :=
  ["SchemaName", "RelationshipType", "Entity1LogicalName", "Entity2LogicalName",
   "Entity1IntersectAttribute", "Entity2IntersectAttribute",
   "Entity1NavigationPropertyName", "Entity2NavigationPropertyName"]

/-- `PowerPlatformService.get_entity_many_to_many_relationships`
(no post-processing). -/
def svc_get_entity_many_to_many_relationships (env : Env) (entity_name : String) :
    SM ManyToManyDoc :=
  make_request env
    ("api/data/v9.2/EntityDefinitions(LogicalName=\x27" ++ entity_name ++
      "\x27)/ManyToManyRelationships?$select=" ++ String.intercalate "," selectM2M)
    env.oracle.manyToMany

/-- `PowerPlatformService.get_entity_relationships`: both kinds,
sequentially. -/
def svc_get_entity_relationships (env : Env) (entity_name : String) :
    SM (OneToManyDoc × ManyToManyDoc) :=
  SM.bind (svc_get_entity_one_to_many_relationships env entity_name) (fun o =>
  SM.bind (svc_get_entity_many_to_many_relationships env entity_name) (fun m =>
  SM.pure (o, m)))

/-- `PowerPlatformService.get_global_option_set`. -/
def svc_get_global_option_set (env : Env) (option_set_name : String) : SM MetaDoc :=
  make_request env
    ("api/data/v9.2/GlobalOptionSetDefinitions(Name=\x27" ++ option_set_name ++ "\x27)")
    env.oracle.globalOptionSet

/-- `PowerPlatformService.get_record`. -/
def svc_get_record (env : Env) (entity_name_plural record_id : String) : SM MetaDoc :=
  make_request env
    ("api/data/v9.2/" ++ entity_name_plural ++ "(" ++ record_id ++ ")")
    env.oracle.record

/-- `PowerPlatformService.query_records`. -/
def svc_query_records (env : Env) (entity_name_plural filter_expr : String)
    (max_records : Int) : SM QueryDoc :=
  make_request env
    ("api/data/v9.2/" ++ entity_name_plural ++ "?$filter=" ++ pyQuote filter_expr ++
      "&$top=" ++ toString max_records)
    env.oracle.query

/-!  ## Prompt templates
(`powerplatform_mcp_server.py`, class `PowerPlatformPrompts`).

The Python templates are f-strings.  Inside an f-string a doubled brace
`\x7b\x7b` denotes one literal brace, so the emitted templates contain
*single-braced* tokens such as `\x7bentity_details\x7d`, while the
`replacements` dictionaries in `handle_use_powerplatform_prompt` use
*double-braced* keys such as `\x7b\x7bentity_details\x7d\x7d`.  The Lean
strings below spell out exactly what the f-strings evaluate to (braces
written `\x7b`/`\x7d`). -/

/-- `PowerPlatformPrompts.entity_overview(entity_name)`. -/
def prompt_entity_overview (entity_name : String) : String :=
  "## Power Platform Entity: " ++ entity_name ++
  "\n\nThis is an overview of the \x27" ++ entity_name ++
  "\x27 entity in Microsoft Power Platform/Dataverse:\n\n### Entity Details\n\x7bentity_details\x7d\n\n### Attributes\n\x7bkey_attributes\x7d\n\n### Relationships\n\x7brelationships\x7d\n\nYou can query this entity using OData filters against the plural name."

/-- `PowerPlatformPrompts.attribute_details(entity_name, attribute_name)`. -/
def prompt_attribute_details (entity_name attribute_name : String) : String :=
  "## Attribute: " ++ attribute_name ++
  "\n\nDetails for the \x27" ++ attribute_name ++ "\x27 attribute of the \x27" ++
  entity_name ++
  "\x27 entity:\n\n\x7battribute_details\x7d\n\n### Usage Notes\n- Data Type: \x7bdata_type\x7d\n- Required: \x7brequired\x7d\n- Max Length: \x7bmax_length\x7d"

/-- `PowerPlatformPrompts.query_template(entity_name_plural)`. -/
def prompt_query_template (entity_name_plural : String) : String :=
  "## OData Query Template for " ++ entity_name_plural ++
  "\n\nUse this template to build queries against the " ++ entity_name_plural ++
  " entity:\n\n```\n" ++ entity_name_plural ++
  "?$select=\x7bselected_fields\x7d&$filter=\x7bfilter_conditions\x7d&$orderby=\x7border_by\x7d&$top=\x7bmax_records\x7d\n```\n\n### Common Filter Examples\n- Equals: `name eq \x27Contoso\x27`\n- Contains: `contains(name, \x27Contoso\x27)`\n- Greater than date: `createdon gt 2023-01-01T00:00:00Z`\n- Multiple conditions: `name eq \x27Contoso\x27 and statecode eq 0`"

/-- `PowerPlatformPrompts.relationship_map(entity_name)`. -/
def prompt_relationship_map (entity_name : String) : String :=
  "## Relationship Map for " ++ entity_name ++
  "\n\nThis shows all relationships for the \x27" ++ entity_name ++
  "\x27 entity:\n\n### One-to-Many Relationships (" ++ entity_name ++
  " as Primary)\n\x7bone_to_many_primary\x7d\n\n### One-to-Many Relationships (" ++
  entity_name ++
  " as Related)\n\x7bone_to_many_related\x7d\n\n### Many-to-Many Relationships\n\x7bmany_to_many\x7d\n\n"

/-- The substitution loop
`for placeholder, value in replacements.items(): prompt_content = prompt_content.replace(placeholder, value)`. -/
def renderTemplate (template : String) (replacements : List (String × String)) : String :=
  replacements.foldl (fun acc kv => pyReplace acc kv.1 kv.2) template

/-!  ## Request parsing
(`powerplatform_mcp_server.py`, pydantic request models).

A request's argument map is modelled as a record of optional fields
(`none` = key absent).  A missing required field makes the pydantic
constructor raise a `ValidationError`; the embedded error strings are
one-line summaries of pydantic's message. -/

/-- The flat argument map of one invocation. -/
structure Params where
  entityName : Option String := none
  attributeName : Option String := none
  optionSetName : Option String := none
  entityNamePlural : Option String := none
  recordId : Option String := none
  filter : Option String := none
  maxRecords : Option Int := none
  promptType : Option String := none
deriving DecidableEq

/-- `EntityRequest(**params)`: `entityName` is required. -/
def parseEntityRequest (p : Params) : Except String String :=
  match p.entityName with
  | some e => .ok e
  | none => .error "1 validation error for EntityRequest: entityName field required"

/-- `AttributeRequest(**params)`: `entityName` and `attributeName` are
required. -/
def parseAttributeRequest (p : Params) : Except String (String × String) :=
  match p.entityName with
  | none => .error "1 validation error for AttributeRequest: entityName field required"
  | some e =>
    match p.attributeName with
    | none => .error "1 validation error for AttributeRequest: attributeName field required"
    | some a => .ok (e, a)

/-- `OptionSetRequest(**params)`: `optionSetName` is required. -/
def parseOptionSetRequest (p : Params) : Except String String :=
  match p.optionSetName with
  | some n => .ok n
  | none => .error "1 validation error for OptionSetRequest: optionSetName field required"

/-- `RecordRequest(**params)`: `entityNamePlural` and `recordId` are
required. -/
def parseRecordRequest (p : Params) : Except String (String × String) :=
  match p.entityNamePlural with
  | none => .error "1 validation error for RecordRequest: entityNamePlural field required"
  | some e =>
    match p.recordId with
    | none => .error "1 validation error for RecordRequest: recordId field required"
    | some r => .ok (e, r)

/-- `QueryRequest(**params)`: `entityNamePlural` and `filter` are
required, `maxRecords` defaults to `50`. -/
def parseQueryRequest (p : Params) : Except String (String × String × Int) :=
  match p.entityNamePlural with
  | none => .error "1 validation error for QueryRequest: entityNamePlural field required"
  | some e =>
    match p.filter with
    | none => .error "1 validation error for QueryRequest: filter field required"
    | some f => .ok (e, f, p.maxRecords.getD 50)

/-- The `PromptType` enumeration. -/
inductive PromptType where
  | ENTITY_OVERVIEW
  | ATTRIBUTE_DETAILS
  | QUERY_TEMPLATE
  | RELATIONSHIP_MAP
deriving DecidableEq

/-- Pydantic coercion of a string to the `PromptType` enumeration. -/
def parsePromptType : String → Option PromptType
  | "ENTITY_OVERVIEW" => some .ENTITY_OVERVIEW
  | "ATTRIBUTE_DETAILS" => some .ATTRIBUTE_DETAILS
  | "QUERY_TEMPLATE" => some .QUERY_TEMPLATE
  | "RELATIONSHIP_MAP" => some .RELATIONSHIP_MAP
  | _ => none

/-- A validated `PromptRequest`. -/
structure PromptRequestData where
  promptType : PromptType
  entityName : String
  attributeName : Option String
deriving DecidableEq

/-- `PromptRequest(**params)`: `promptType` (a valid enumeration value)
and `entityName` are required, `attributeName` is optional. -/
def parsePromptRequest (p : Params) : Except String PromptRequestData :=
  match p.promptType with
  | none => .error "1 validation error for PromptRequest: promptType field required"
  | some s =>
    match parsePromptType s with
    | none => .error "1 validation error for PromptRequest: promptType is not a valid enumeration member"
    | some pt =>
      match p.entityName with
      | none => .error "1 validation error for PromptRequest: entityName field required"
      | some e => .ok ⟨pt, e, p.attributeName⟩

/-!  ## Text formatting helpers used by the handlers. -/

/-- Python `str(x)` for an optional string read with `.get` and no
default (`str(None) = "None"`). -/
def pyStrOptS : Option String → String
  | none => "None"
  | some s => s

/-- Python `attr.get(key, default)` on the modelled attribute payload. -/
def Attribute.getPayloadD (a : Attribute) (k dflt : String) : String :=
  ((a.payload.find? (fun kv => kv.1 == k)).map (·.2)).getD dflt

/-- `[(k, v)]` when the optional field is present, else `[]`. -/
def optField (k : String) : Option String → List (String × String)
  | none => []
  | some v => [(k, v)]

/-- Deterministic stand-in for `json.dumps` of a flat string map.  (The
exact dump text matters to no claim; it is only a fixed function of the
document.) -/
def dumpStrPairs (l : List (String × String)) : String :=
  "\x7b" ++
    String.intercalate ", " (l.map (fun kv => "\x22" ++ kv.1 ++ "\x22: \x22" ++ kv.2 ++ "\x22")) ++
    "\x7d"

/-- Stand-in for `json.dumps` of an attributes document. -/
def dumpAttributesDoc (d : AttributesDoc) : String :=
  "\x7b" ++
    (match d.value with
     | none => ""
     | some l =>
       "\x22value\x22: [" ++
         String.intercalate ", "
           (l.map (fun a => dumpStrPairs (optField "LogicalName" a.logicalName ++ a.payload))) ++
         "], ") ++
    dumpStrPairs d.rest ++ "\x7d"

/-- Stand-in for `json.dumps` of a one-to-many document. -/
def dumpOneToManyDoc (d : OneToManyDoc) : String :=
  "\x7b" ++
    (match d.value with
     | none => ""
     | some l =>
       "\x22value\x22: [" ++
         String.intercalate ", "
           (l.map (fun r =>
             dumpStrPairs
               (optField "SchemaName" r.schemaName ++
                optField "ReferencingEntity" r.referencingEntity ++
                optField "ReferencedEntity" r.referencedEntity ++ r.payload))) ++
         "], ") ++
    dumpStrPairs d.rest ++ "\x7d"

/-- Stand-in for `json.dumps` of a many-to-many document. -/
def dumpManyToManyDoc (d : ManyToManyDoc) : String :=
  "\x7b" ++
    (match d.value with
     | none => ""
     | some l =>
       "\x22value\x22: [" ++
         String.intercalate ", "
           (l.map (fun r =>
             dumpStrPairs
               (optField "SchemaName" r.schemaName ++
                optField "Entity1LogicalName" r.entity1LogicalName ++
                optField "Entity2LogicalName" r.entity2LogicalName ++ r.payload))) ++
         "], ") ++
    dumpStrPairs d.rest ++ "\x7d"

/-- Stand-in for `json.dumps` of the combined relationships dictionary
`{"oneToMany": ..., "manyToMany": ...}`. -/
def dumpRelationships (o2m : OneToManyDoc) (m2m : ManyToManyDoc) : String :=
  "\x7b\x22oneToMany\x22: " ++ dumpOneToManyDoc o2m ++
    ", \x22manyToMany\x22: " ++ dumpManyToManyDoc m2m ++ "\x7d"

/-- Stand-in for `json.dumps` of a records-query document. -/
def dumpQueryDoc (d : QueryDoc) : String :=
  "\x7b" ++
    (match d.value with
     | none => ""
     | some l => "\x22value\x22: [" ++ String.intercalate ", " (l.map dumpMetaDoc) ++ "], ") ++
    dumpStrPairs d.rest ++ "\x7d"

/-!  ## Handler bodies
(`powerplatform_mcp_server.py`, `handle_*` functions).

Each body is the code inside a handler's `try` block, the final `.ok`
being the text of the success response; any raised exception becomes the
`.error` case and is turned into the error-text response by
`wrapHandler` below. -/

/-- Body of `handle_get_entity_metadata`. -/
def body_get_entity_metadata (env : Env) (p : Params) : SM String :=
  SM.bind (SM.liftE (parseEntityRequest p)) (fun entity_name =>
  SM.bind (SM.liftE (get_powerplatform_service env.config)) (fun _ =>
  SM.bind (svc_get_entity_metadata env entity_name) (fun metadata =>
  SM.pure ("Entity metadata for \x27" ++ entity_name ++ "\x27:\n\n" ++ dumpMetaDoc metadata))))

/-- Body of `handle_get_entity_attributes`. -/
def body_get_entity_attributes (env : Env) (p : Params) : SM String :=
  SM.bind (SM.liftE (parseEntityRequest p)) (fun entity_name =>
  SM.bind (SM.liftE (get_powerplatform_service env.config)) (fun _ =>
  SM.bind (svc_get_entity_attributes env entity_name) (fun attributes =>
  SM.pure ("Attributes for entity \x27" ++ entity_name ++ "\x27:\n\n" ++
    dumpAttributesDoc attributes))))

/-- Body of `handle_get_entity_attribute`. -/
def body_get_entity_attribute (env : Env) (p : Params) : SM String :=
  SM.bind (SM.liftE (parseAttributeRequest p)) (fun req =>
  SM.bind (SM.liftE (get_powerplatform_service env.config)) (fun _ =>
  SM.bind (svc_get_entity_attribute env req.1 req.2) (fun attrDoc =>
  SM.pure ("Attribute \x27" ++ req.2 ++ "\x27 for entity \x27" ++ req.1 ++ "\x27:\n\n" ++
    dumpMetaDoc attrDoc))))

/-- Body of `handle_get_entity_relationships`. -/
def body_get_entity_relationships (env : Env) (p : Params) : SM String :=
  SM.bind (SM.liftE (parseEntityRequest p)) (fun entity_name =>
  SM.bind (SM.liftE (get_powerplatform_service env.config)) (fun _ =>
  SM.bind (svc_get_entity_relationships env entity_name) (fun rels =>
  SM.pure ("Relationships for entity \x27" ++ entity_name ++ "\x27:\n\n" ++
    dumpRelationships rels.1 rels.2))))

/-- Body of `handle_get_global_option_set`. -/
def body_get_global_option_set (env : Env) (p : Params) : SM String :=
  SM.bind (SM.liftE (parseOptionSetRequest p)) (fun option_set_name =>
  SM.bind (SM.liftE (get_powerplatform_service env.config)) (fun _ =>
  SM.bind (svc_get_global_option_set env option_set_name) (fun option_set =>
  SM.pure ("Global option set \x27" ++ option_set_name ++ "\x27:\n\n" ++
    dumpMetaDoc option_set))))

/-- Body of `handle_get_record`. -/
def body_get_record (env : Env) (p : Params) : SM String :=
  SM.bind (SM.liftE (parseRecordRequest p)) (fun req =>
  SM.bind (SM.liftE (get_powerplatform_service env.config)) (fun _ =>
  SM.bind (svc_get_record env req.1 req.2) (fun record =>
  SM.pure ("Record from \x27" ++ req.1 ++ "\x27 with ID \x27" ++ req.2 ++ "\x27:\n\n" ++
    dumpMetaDoc record))))

/-- Body of `handle_query_records`. -/
def body_query_records (env : Env) (p : Params) : SM String :=
  SM.bind (SM.liftE (parseQueryRequest p)) (fun req =>
  SM.bind (SM.liftE (get_powerplatform_service env.config)) (fun _ =>
  SM.bind (svc_query_records env req.1 req.2.1 req.2.2) (fun records =>
  SM.pure ("Retrieved " ++ toString (records.value.getD []).length ++ " records from \x27" ++
    req.1 ++ "\x27 with filter \x27" ++ req.2.1 ++ "\x27:\n\n" ++ dumpQueryDoc records))))

/-!  ## Prompt handler body
(`powerplatform_mcp_server.py`, `handle_use_powerplatform_prompt`). -/

/-- The `entity_details` f-string of the `ENTITY_OVERVIEW` branch.  The
nested `.get` chains raise `AttributeError` when an intermediate value
is not a dict. -/
def entityDetailsText (metadata : MetaDoc) (entity_name : String) : Except String String := do
  let dn ← metaChain3 metadata "DisplayName" "UserLocalizedLabel" "Label" (.s entity_name)
  let desc ← metaChain3 metadata "Description" "UserLocalizedLabel" "Label" (.s "No description")
  .ok ("- Display Name: " ++ dn.render ++
    "\n- Schema Name: " ++ pyStrOpt (metaLookup metadata "SchemaName") ++
    "\n- Description: " ++ desc.render ++
    "\n- Primary Key: " ++ pyStrOpt (metaLookup metadata "PrimaryIdAttribute") ++
    "\n- Primary Name: " ++ pyStrOpt (metaLookup metadata "PrimaryNameAttribute"))

/-- The `key_attributes` text of the `ENTITY_OVERVIEW` branch. -/
def keyAttributesText (attributes : AttributesDoc) : String :=
  String.intercalate "\n" (attributes.valueD.map (fun a =>
    "- " ++ pyStrOptS a.logicalName ++ ": " ++ a.getPayloadD "@odata.type" "Unknown type"))

/-- The `relationships_summary` text of the `ENTITY_OVERVIEW` branch. -/
def relationshipsSummaryText (o2m : OneToManyDoc) (m2m : ManyToManyDoc) : String :=
  "- One-to-Many Relationships: " ++ toString o2m.valueD.length ++
    "\n- Many-to-Many Relationships: " ++ toString m2m.valueD.length

/-- The `ENTITY_OVERVIEW` substitution: the three double-braced
replacement keys applied to the (single-braced) template. -/
def render_entity_overview
    (entity_name entity_details key_attributes relationships_summary : String) : String :=
  renderTemplate (prompt_entity_overview entity_name)
    [("\x7b\x7bentity_details\x7d\x7d", entity_details),
     ("\x7b\x7bkey_attributes\x7d\x7d", key_attributes),
     ("\x7b\x7brelationships\x7d\x7d", relationships_summary)]

/-- The `attr_details` f-string of the `ATTRIBUTE_DETAILS` branch. -/
def attrDetailsText (attrDoc : MetaDoc) (attribute_name : String) : Except String String := do
  let dn ← metaChain3 attrDoc "DisplayName" "UserLocalizedLabel" "Label" (.s attribute_name)
  let desc ← metaChain3 attrDoc "Description" "UserLocalizedLabel" "Label" (.s "No description")
  let req ← (metaGetD attrDoc "RequiredLevel" (.obj .fnil)).getD? "Value" (.s "No")
  .ok ("- Display Name: " ++ dn.render ++
    "\n- Description: " ++ desc.render ++
    "\n- Type: " ++ pyStrOpt (metaLookup attrDoc "AttributeType") ++
    "\n- Format: " ++ (metaGetD attrDoc "Format" (.s "N/A")).render ++
    "\n- Is Required: " ++ req.render ++
    "\n- Is Searchable: " ++ (metaGetD attrDoc "IsValidForAdvancedFind" (.b false)).render)

/-- A replacement value must be a Python `str`; `str.replace` raises
`TypeError` otherwise.  (The model raises while the replacement mapping
is built rather than inside the replace loop; the observable outcome —
an error-text response — is the same.) -/
def asReplaceStr : MetaVal → Except String String
  | .s v => .ok v
  | _ => .error "TypeError: replace() argument 2 must be str"

/-- The `ATTRIBUTE_DETAILS` substitution. -/
def render_attribute_details
    (entity_name attribute_name attribute_details data_type required max_length : String) :
    String :=
  renderTemplate (prompt_attribute_details entity_name attribute_name)
    [("\x7b\x7battribute_details\x7d\x7d", attribute_details),
     ("\x7b\x7bdata_type\x7d\x7d", data_type),
     ("\x7b\x7brequired\x7d\x7d", required),
     ("\x7b\x7bmax_length\x7d\x7d", max_length)]

/-- `",".join(attr.get("LogicalName") for ...)`: joining raises
`TypeError` when some attribute has no `LogicalName` key (Python
`None`). -/
def joinLogicalNames (attrs : List Attribute) : Except String String :=
  if attrs.all (fun a => a.logicalName.isSome) then
    .ok (String.intercalate "," (attrs.filterMap (·.logicalName)))
  else
    .error "TypeError: sequence item: expected str instance, NoneType found"

/-- The `QUERY_TEMPLATE` substitution. -/
def render_query_template
    (entity_name_plural selected_fields filter_conditions order_by max_records : String) :
    String :=
  renderTemplate (prompt_query_template entity_name_plural)
    [("\x7b\x7bselected_fields\x7d\x7d", selected_fields),
     ("\x7b\x7bfilter_conditions\x7d\x7d", filter_conditions),
     ("\x7b\x7border_by\x7d\x7d", order_by),
     ("\x7b\x7bmax_records\x7d\x7d", max_records)]

/-- Python `"\n".join(entries) or "None found"`. -/
def orNoneFound (s : String) : String := if s == "" then "None found" else s

/-- The `one_to_many_primary` text of the `RELATIONSHIP_MAP` branch. -/
def oneToManyPrimaryText (o2m : OneToManyDoc) (entity_name : String) : String :=
  orNoneFound (String.intercalate "\n"
    ((o2m.valueD.filter (fun r => !(r.referencingEntity == some entity_name))).map (fun r =>
      "- " ++ pyStrOptS r.schemaName ++ ": " ++ entity_name ++ " (1) → " ++
        pyStrOptS r.referencingEntity ++ " (N)")))

/-- The `one_to_many_related` text of the `RELATIONSHIP_MAP` branch. -/
def oneToManyRelatedText (o2m : OneToManyDoc) (entity_name : String) : String :=
  orNoneFound (String.intercalate "\n"
    ((o2m.valueD.filter (fun r => r.referencingEntity == some entity_name)).map (fun r =>
      "- " ++ pyStrOptS r.schemaName ++ ": " ++ pyStrOptS r.referencedEntity ++ " (1) → " ++
        entity_name ++ " (N)")))

/-- The `many_to_many` text of the `RELATIONSHIP_MAP` branch. -/
def manyToManyText (m2m : ManyToManyDoc) (entity_name : String) : String :=
  orNoneFound (String.intercalate "\n"
    (m2m.valueD.map (fun r =>
      "- " ++ pyStrOptS r.schemaName ++ ": " ++ entity_name ++ " (N) ↔ " ++
        (if !(r.entity1LogicalName == some entity_name) then pyStrOptS r.entity1LogicalName
         else pyStrOptS r.entity2LogicalName) ++ " (N)")))

/-- The `RELATIONSHIP_MAP` substitution. -/
def render_relationship_map
    (entity_name one_to_many_primary one_to_many_related many_to_many : String) : String :=
  renderTemplate (prompt_relationship_map entity_name)
    [("\x7b\x7bone_to_many_primary\x7d\x7d", one_to_many_primary),
     ("\x7b\x7bone_to_many_related\x7d\x7d", one_to_many_related),
     ("\x7b\x7bmany_to_many\x7d\x7d", many_to_many)]

/-- Body of `handle_use_powerplatform_prompt`. -/
def body_use_powerplatform_prompt (env : Env) (p : Params) : SM String :=
  SM.bind (SM.liftE (parsePromptRequest p)) (fun req =>
  SM.bind (SM.liftE (get_powerplatform_service env.config)) (fun _ =>
  match req.promptType with
  | .ENTITY_OVERVIEW =>
    SM.bind (svc_get_entity_metadata env req.entityName) (fun metadata =>
    SM.bind (svc_get_entity_attributes env req.entityName) (fun attributes =>
    SM.bind (SM.liftE (entityDetailsText metadata req.entityName)) (fun entity_details =>
    SM.bind (svc_get_entity_relationships env req.entityName) (fun rels =>
    SM.pure (render_entity_overview req.entityName entity_details
      (keyAttributesText attributes) (relationshipsSummaryText rels.1 rels.2))))))
  | .ATTRIBUTE_DETAILS =>
    if pyTruthy req.attributeName then
      SM.bind (svc_get_entity_attribute env req.entityName (req.attributeName.getD ""))
        (fun attrDoc =>
      SM.bind (SM.liftE (attrDetailsText attrDoc (req.attributeName.getD "")))
        (fun attribute_details =>
      SM.bind (SM.liftE (asReplaceStr (metaGetD attrDoc "AttributeType" (.s "Unknown"))))
        (fun data_type =>
      SM.bind (SM.liftE ((metaGetD attrDoc "RequiredLevel" (.obj .fnil)).getD? "Value"
          (.s "No")))
        (fun required_val =>
      SM.bind (SM.liftE (asReplaceStr required_val)) (fun required =>
      SM.pure (render_attribute_details req.entityName (req.attributeName.getD "")
        attribute_details data_type required
        (metaGetD attrDoc "MaxLength" (.s "N/A")).render))))))
    else
      SM.throw "attributeName is required for ATTRIBUTE_DETAILS prompt"
  | .QUERY_TEMPLATE =>
    SM.bind (svc_get_entity_metadata env req.entityName) (fun metadata =>
    SM.bind (svc_get_entity_attributes env req.entityName) (fun attributes =>
    SM.bind (SM.liftE (joinLogicalNames (attributes.valueD.take 5))) (fun selected_fields =>
    SM.pure (render_query_template (pyStrOpt (metaLookup metadata "EntitySetName"))
      selected_fields
      (pyStrOpt (metaLookup metadata "PrimaryNameAttribute") ++ " eq \x27Example\x27")
      (pyStrOpt (metaLookup metadata "PrimaryNameAttribute") ++ " asc")
      "50"))))
  | .RELATIONSHIP_MAP =>
    SM.bind (svc_get_entity_relationships env req.entityName) (fun rels =>
    SM.pure (render_relationship_map req.entityName
      (oneToManyPrimaryText rels.1 req.entityName)
      (oneToManyRelatedText rels.1 req.entityName)
      (manyToManyText rels.2 req.entityName)))))

/-!  ## Response wrapping and dispatch
(`powerplatform_mcp_server.py`, `McpServer` and the handler `except`
blocks). -/

/-- One content block of a tool response. -/
structure Content where
  type : String
  text : String
deriving DecidableEq

/-- A tool response: a list of content blocks. -/
structure ToolResponse where
  content : List Content
deriving DecidableEq

/-- The shared handler shape: the `try` block's text on success, or the
handler's `except` block turning the exception into an error-text
response with the handler's fixed message prefix. -/
def wrapHandler (failMsg : String) (body : Except String String) : ToolResponse :=
  { content := [⟨"text", (match body with | .ok t => t | .error e => failMsg ++ e)⟩] }

/-- A registered operation: its name, the error-message prefix of its
`except` block, and its body. -/
structure RegisteredTool where
  name : String
  failMsg : String
  body : Env → Params → SM String

/-- Run a registered operation to its tool response. -/
def RegisteredTool.run (t : RegisteredTool) (env : Env) (p : Params) : ToolResponse :=
  wrapHandler t.failMsg ((t.body env p) env.state []).1

/-- The outbound calls (token requests and Dataverse GETs) a registered
operation issues on the given invocation. -/
def RegisteredTool.netLog (t : RegisteredTool) (env : Env) (p : Params) : List String :=
  ((t.body env p) env.state []).2.2

/-- `get-entity-metadata` as registered in `main()`. -/
def tool_get_entity_metadata : RegisteredTool :=
  ⟨"get-entity-metadata", "Failed to get entity metadata: ", body_get_entity_metadata⟩

/-- `get-entity-attributes` as registered in `main()`. -/
def tool_get_entity_attributes : RegisteredTool :=
  ⟨"get-entity-attributes", "Failed to get entity attributes: ", body_get_entity_attributes⟩

/-- `get-entity-attribute` as registered in `main()`. -/
def tool_get_entity_attribute : RegisteredTool :=
  ⟨"get-entity-attribute", "Failed to get entity attribute: ", body_get_entity_attribute⟩

/-- `get-entity-relationships` as registered in `main()`. -/
def tool_get_entity_relationships : RegisteredTool :=
  ⟨"get-entity-relationships", "Failed to get entity relationships: ",
    body_get_entity_relationships⟩

/-- `get-global-option-set` as registered in `main()`. -/
def tool_get_global_option_set : RegisteredTool :=
  ⟨"get-global-option-set", "Failed to get global option set: ", body_get_global_option_set⟩

/-- `get-record` as registered in `main()`. -/
def tool_get_record : RegisteredTool :=
  ⟨"get-record", "Failed to get record: ", body_get_record⟩

/-- `query-records` as registered in `main()`. -/
def tool_query_records : RegisteredTool :=
  ⟨"query-records", "Failed to query records: ", body_query_records⟩

/-- `use-powerplatform-prompt` as registered in `main()`. -/
def tool_use_powerplatform_prompt : RegisteredTool :=
  ⟨"use-powerplatform-prompt", "Failed to use PowerPlatform prompt: ",
    body_use_powerplatform_prompt⟩

/-- The handler table built by `main()`. -/
def registry : List RegisteredTool :=
  [tool_get_entity_metadata, tool_get_entity_attributes, tool_get_entity_attribute,
   tool_get_entity_relationships, tool_get_global_option_set, tool_get_record,
   tool_query_records, tool_use_powerplatform_prompt]

/-- A protocol-level reply of `McpServer.handle_request`: either
`{"id": ..., "result": ...}` or `{"error": ...}` (which carries no
result). -/
inductive McpResponse where
  | result (id : Option String) (resp : ToolResponse)
  | protocolError (msg : String)
deriving DecidableEq

/-- `McpServer.handle_request` after JSON decoding: an unregistered
function name yields the protocol-level error reply; a registered one
runs its handler and wraps the result. -/
def handle_request (env : Env) (function_name : String) (p : Params)
    (request_id : Option String) : McpResponse :=
  match registry.find? (fun t => t.name == function_name) with
  | none => .protocolError ("Unknown function: " ++ function_name)
  | some t => .result request_id (t.run env p)

/-!  ## Concrete demonstration inputs used by the witnesses below. -/

/-- An oracle whose collaborators all fail. -/
def demoOracle : Oracle :=
  ⟨none, .error "boom", .error "boom", .error "boom", .error "boom", .error "boom",
   .error "boom", .error "boom", .error "boom"⟩

/-- Fresh service state (no cached token). -/
def demoState : ServiceState := ⟨none, 0⟩

/-- Service state holding a valid cached token until time 1000. -/
def demoStateTok : ServiceState := ⟨some "TOK", 1000⟩

/-- A fully missing configuration. -/
def demoConfigEmpty : PowerPlatformConfig := ⟨"", "", "", ""⟩

/-- A complete configuration. -/
def demoConfigFull : PowerPlatformConfig := ⟨"https://org.example", "cid", "secret", "tid"⟩

/-- Invocation environment with missing configuration. -/
def demoEnvBad : Env := ⟨demoConfigEmpty, demoState, 0, demoOracle⟩

/-- Invocation environment with complete configuration but failing
collaborators. -/
def demoEnvGood : Env := ⟨demoConfigFull, demoState, 0, demoOracle⟩

/-- Two one-to-many relationships, one referencing a `msdyn_` entity. -/
def demoO2MRels : List OneToManyRel :=
  [⟨some "rel_msdyn", some "msdyn_foo", some "account", []⟩,
   ⟨some "rel_contact", some "contact", some "account", []⟩]

/-- An oracle returning relationship documents. -/
def demoOracleDocs : Oracle :=
  ⟨some ⟨some "TOK", some 600⟩, .ok [], .ok ⟨some [], []⟩, .ok [],
   .ok ⟨some demoO2MRels, []⟩,
   .ok ⟨some [⟨some "m1", some "account", some "contact", []⟩], []⟩,
   .ok [], .ok [], .ok ⟨some [], []⟩⟩

/-- Environment with a valid cached token and relationship documents. -/
def demoEnvDocs : Env := ⟨demoConfigFull, demoStateTok, 0, demoOracleDocs⟩

/-- An oracle whose list documents lack the `value` array. -/
def demoOracleNoValue : Oracle :=
  ⟨some ⟨some "TOK", some 600⟩, .ok [], .ok ⟨none, [("k", "v")]⟩, .ok [],
   .ok ⟨none, []⟩, .ok ⟨none, []⟩, .ok [], .ok [], .ok ⟨none, []⟩⟩

/-- Environment with a valid cached token and `value`-less documents. -/
def demoEnvNoValue : Env := ⟨demoConfigFull, demoStateTok, 0, demoOracleNoValue⟩

/-- An oracle with empty (but present) documents for the
`ENTITY_OVERVIEW` prompt. -/
def demoOracleOverview : Oracle :=
  ⟨some ⟨some "TOK", some 600⟩, .ok [], .ok ⟨some [], []⟩, .ok [],
   .ok ⟨some [], []⟩, .ok ⟨some [], []⟩, .ok [], .ok [], .ok ⟨some [], []⟩⟩

/-- Environment for the `ENTITY_OVERVIEW` prompt evaluation. -/
def demoEnvOverview : Env := ⟨demoConfigFull, demoStateTok, 0, demoOracleOverview⟩

/-- An empty argument map. -/
def demoParamsEmpty : Params := {}

/-- Arguments holding only `entityName`. -/
def demoParamsEntity : Params := { entityName := some "account" }

/-- Arguments for an `ENTITY_OVERVIEW` prompt invocation. -/
def demoParamsOverview : Params :=
  { entityName := some "account", promptType := some "ENTITY_OVERVIEW" }

/-- Arguments for an `ATTRIBUTE_DETAILS` prompt invocation that lack the
attribute name. -/
def demoParamsAttrPrompt : Params :=
  { entityName := some "account", promptType := some "ATTRIBUTE_DETAILS" }

/-!  ## Helper lemmas on the Python string operations. -/

theorem pyEndsWith_iff {s t : String} : pyEndsWith s t = true ↔ t.data <:+ s.data := by
  simp [pyEndsWith]

theorem pyStartsWith_iff {s t : String} : pyStartsWith s t = true ↔ t.data <+: s.data := by
  simp [pyStartsWith]

theorem pyEndsWith_append_name (X : String) : pyEndsWith (X ++ "name") "name" = true := by
  rw [pyEndsWith_iff, String.data_append]
  exact List.suffix_append _ _

theorem isNameSuffixed_of_yomi {s : String} (h : pyEndsWith s "yominame" = true) :
    isNameSuffixed s = true := by
  rw [pyEndsWith_iff] at h
  have hname : ("name".data) <:+ s.data := List.IsSuffix.trans (by decide) h
  have h8 : ("yominame".data).length = 8 := rfl
  have hlen : 8 ≤ s.data.length := h8 ▸ h.length_le
  unfold isNameSuffixed
  rw [pyEndsWith_iff.mpr hname]
  simp only [pyLen, Bool.true_and, decide_eq_true_eq]
  omega

theorem dropLast4_append_name (X : String) : dropLast4 (X ++ "name") = X := by
  apply String.ext
  simp only [dropLast4, String.data_append]
  have h4 : ("name".data).length = 4 := rfl
  rw [List.length_append, h4]
  have harith : X.data.length + 4 - 4 = X.data.length := by omega
  rw [harith]
  exact List.take_left _ _

theorem string_ne_empty_data {X : String} (h : X ≠ "") : 0 < X.data.length := by
  rcases hX : X.data with _ | ⟨c, cs⟩
  · exact absurd (String.ext (by rw [hX])) h
  · simp

theorem isNameSuffixed_append {X : String} (h : X ≠ "") :
    isNameSuffixed (X ++ "name") = true := by
  have hlen := string_ne_empty_data h
  unfold isNameSuffixed
  rw [pyEndsWith_append_name]
  have h4 : ("name".data).length = 4 := rfl
  simp only [pyLen, String.data_append, List.length_append, h4, Bool.true_and,
    decide_eq_true_eq]
  omega

/-!  ## Claim C4. -/

/-- C4: for every raw entity-metadata document, the document returned by
`get_entity_metadata` never contains a `Privileges` key, every other key
is present with its original value, and nothing new is added. -/
theorem C4_privileges_stripped {α : Type} (doc : List (String × α)) :
    (∀ kv ∈ shape_entity_metadata doc, kv.1 ≠ "Privileges") ∧
    (∀ kv ∈ doc, kv.1 ≠ "Privileges" → kv ∈ shape_entity_metadata doc) ∧
    (∀ kv ∈ shape_entity_metadata doc, kv ∈ doc) := by
  refine ⟨?_, ?_, ?_⟩
  · intro kv h
    have h2 := (List.mem_filter.mp h).2
    simpa using h2
  · intro kv h hne
    refine List.mem_filter.mpr ⟨h, ?_⟩
    simpa using hne
  · intro kv h
    exact (List.mem_filter.mp h).1

/-- Witness for C4 at a concrete document containing a `Privileges` key. -/
theorem C4_privileges_stripped_witness :
    ("DisplayName", "X") ∈ shape_entity_metadata [("Privileges", "p"), ("DisplayName", "X")] :=
  (C4_privileges_stripped [("Privileges", "p"), ("DisplayName", "X")]).2.1
    ("DisplayName", "X") (by decide) (by decide)

/-!  ## Claim C5. -/

/-- C5: no attribute in the list returned by `get_entity_attributes` has
a logical name ending with `yominame`. -/
theorem C5_no_yominame (d : AttributesDoc) (a : Attribute)
    (h : a ∈ (get_entity_attributes_shape d).valueD) :
    pyEndsWith a.lnD "yominame" = false := by
  rcases d with ⟨val, rest⟩
  cases val with
  | none =>
    simp [get_entity_attributes_shape, AttributesDoc.valueD] at h
  | some attrs =>
    simp only [get_entity_attributes_shape, AttributesDoc.valueD, Option.getD] at h
    simp only [shape_attributes, filterNameShadows] at h
    have h1 : a ∈ filterYomi attrs := (List.mem_filter.mp h).1
    have h2 := (List.mem_filter.mp h1).2
    simpa using h2

/-- Witness for C5 at a concrete document. -/
theorem C5_no_yominame_witness :
    pyEndsWith (Attribute.lnD ⟨some "accountid", []⟩) "yominame" = false :=
  C5_no_yominame ⟨some [⟨some "accountid", []⟩], []⟩ ⟨some "accountid", []⟩ (by decide)

/-!  ## Claim C2 (corrected). -/

/-- C2 as frozen is false on the code: with attributes `fullname` and
`fullnamename` both present pre-filter (distinct, and the second is the
first plus the suffix `name`), the returned list still contains
`fullnamename`, because the code treats only attributes that are *not*
themselves `...name`-suffixed as base-name candidates. -/
theorem C2_counterexample :
    (⟨some "fullname", []⟩ : Attribute) ∈
        [(⟨some "fullname", []⟩ : Attribute), ⟨some "fullnamename", []⟩] ∧
    (⟨some "fullnamename", []⟩ : Attribute) ∈
        [(⟨some "fullname", []⟩ : Attribute), ⟨some "fullnamename", []⟩] ∧
    (⟨some "fullname", []⟩ : Attribute) ≠ ⟨some "fullnamename", []⟩ ∧
    "fullnamename" = "fullname" ++ "name" ∧
    (⟨some "fullnamename", []⟩ : Attribute) ∈
      shape_attributes [(⟨some "fullname", []⟩ : Attribute), ⟨some "fullnamename", []⟩] := by
  decide

/-- `l.contains a` agrees with list membership. -/
theorem contains_iff_mem {α : Type} [BEq α] [LawfulBEq α] {l : List α} {a : α} :
    l.contains a = true ↔ a ∈ l :=
  List.elem_iff

/-- Every logical name in `attributes_to_remove` is `...name`-suffixed. -/
theorem mem_attributesToRemove_nameSuffixed (l : List Attribute) (s : String)
    (hs : s ∈ attributesToRemove l) : isNameSuffixed s = true := by
  unfold attributesToRemove at hs
  rcases List.mem_map.mp hs with ⟨c, hc, hcs⟩
  have hpred := (List.mem_filter.mp hc).2
  simp only [Bool.and_eq_true] at hpred
  rw [← hcs]
  exact hpred.1

/-- C2 (amended): the claim holds as soon as the base name `X` is
non-empty and is not itself a `...name` suffix of length greater than 4
(the code registers only such attributes as base-name candidates): then
every attribute named `X` is returned and no attribute named `X+"name"`
is. -/
theorem C2_amended (attrs : List Attribute) (X : String)
    (hne : X ≠ "") (hbase : isNameSuffixed X = false)
    (hX : ∃ a ∈ attrs, a.logicalName = some X)
    (hXn : ∃ b ∈ attrs, b.logicalName = some (X ++ "name")) :
    (∀ a ∈ attrs, a.logicalName = some X → a ∈ shape_attributes attrs) ∧
    (∀ b ∈ shape_attributes attrs, b.logicalName ≠ some (X ++ "name")) := by
  clear hXn
  have hXyomi : pyEndsWith X "yominame" = false := by
    cases hpe : pyEndsWith X "yominame" with
    | false => rfl
    | true => exact absurd (isNameSuffixed_of_yomi hpe) (by simp [hbase])
  have hmemYomi : ∀ a ∈ attrs, a.logicalName = some X → a ∈ filterYomi attrs := by
    intro a ha hX'
    refine List.mem_filter.mpr ⟨ha, ?_⟩
    have hl : a.lnD = X := by simp [Attribute.lnD, hX']
    rw [hl, hXyomi]
    rfl
  constructor
  · intro a ha hX'
    simp only [shape_attributes, filterNameShadows]
    refine List.mem_filter.mpr ⟨hmemYomi a ha hX', ?_⟩
    simp only [hX']
    cases hc : (attributesToRemove (filterYomi attrs)).contains X with
    | false => rfl
    | true =>
      have hmem : X ∈ attributesToRemove (filterYomi attrs) := contains_iff_mem.mp hc
      exact absurd (mem_attributesToRemove_nameSuffixed _ _ hmem) (by simp [hbase])
  · intro b hb hbn
    simp only [shape_attributes, filterNameShadows] at hb
    have hmem2 := List.mem_filter.mp hb
    have hbl : b ∈ filterYomi attrs := hmem2.1
    have hcond := hmem2.2
    simp only [hbn] at hcond
    have hnotin : ¬ ((X ++ "name") ∈ attributesToRemove (filterYomi attrs)) := by
      intro hin
      rw [contains_iff_mem.mpr hin] at hcond
      simp at hcond
    apply hnotin
    unfold attributesToRemove
    apply List.mem_map.mpr
    refine ⟨b, List.mem_filter.mpr ⟨hbl, ?_⟩, ?_⟩
    · have hlnD : b.lnD = X ++ "name" := by simp [Attribute.lnD, hbn]
      rw [hlnD, dropLast4_append_name, isNameSuffixed_append hne]
      simp only [Bool.true_and]
      rcases hX with ⟨a0, ha0, ha0n⟩
      have ha0f : a0 ∈ filterYomi attrs := hmemYomi a0 ha0 ha0n
      have ha0lnD : a0.lnD = X := by simp [Attribute.lnD, ha0n]
      refine contains_iff_mem.mpr (List.mem_map.mpr ⟨a0, List.mem_filter.mpr ⟨ha0f, ?_⟩, ha0lnD⟩)
      rw [ha0lnD, hbase]
      rfl
    · simp [Attribute.lnD, hbn]

/-- Witness for the amended C2 at a concrete attribute list. -/
theorem C2_amended_witness :
    (⟨some "account", []⟩ : Attribute) ∈
      shape_attributes [(⟨some "account", []⟩ : Attribute), ⟨some "accountname", []⟩] :=
  (C2_amended [⟨some "account", []⟩, ⟨some "accountname", []⟩] "account"
      (by decide) (by decide)
      ⟨⟨some "account", []⟩, by decide, rfl⟩
      ⟨⟨some "accountname", []⟩, by decide, by decide⟩).1
    ⟨some "account", []⟩ (by decide) rfl

/-!  ## Claim C3. -/

/-- C3: after acquiring a token at time `t` with `expires_in = 600`, the
cached expiry is `t + 300` (the five-minute safety margin); a
`get_access_token` call at `t + 299` returns the cached token and issues
no request to the identity provider, and a call at `t + 301` issues a
refresh request. -/
theorem C3_token_cache (t : Int) (tok : String) (st0 : ServiceState)
    (acq1 acq2 : Option MsalResult) (hn : st0.access_token = none) (htok : tok ≠ "") :
    (get_access_token st0 t (some ⟨some tok, some 600⟩)).result = .ok tok ∧
    (get_access_token st0 t (some ⟨some tok, some 600⟩)).state = ⟨some tok, t + 300⟩ ∧
    get_access_token ⟨some tok, t + 300⟩ (t + 299) acq1 =
      ⟨.ok tok, ⟨some tok, t + 300⟩, false⟩ ∧
    (get_access_token ⟨some tok, t + 300⟩ (t + 301) acq2).issuedRequest = true := by
  have e1 : get_access_token st0 t (some ⟨some tok, some 600⟩) =
      ⟨.ok tok, ⟨some tok, t + 600 - 5 * 60⟩, true⟩ := by
    unfold get_access_token
    rw [hn]
    rfl
  have harith : t + 600 - 5 * 60 = t + 300 := by omega
  refine ⟨by rw [e1], by rw [e1, harith], ?_, ?_⟩
  · unfold get_access_token
    simp only
    rw [if_pos ⟨htok, by omega⟩]
  · unfold get_access_token
    simp only
    rw [if_neg (fun hcon => absurd hcon.2 (by omega))]
    rcases acq2 with _ | ⟨tk, ei⟩
    · rfl
    · rcases tk with _ | tk' <;> rcases ei with _ | ei' <;> rfl

/-- Witness for C3 at `t = 0`. -/
theorem C3_token_cache_witness :
    (get_access_token ⟨none, 0⟩ 0 (some ⟨some "TOK", some 600⟩)).result = .ok "TOK" ∧
    (get_access_token ⟨none, 0⟩ 0 (some ⟨some "TOK", some 600⟩)).state = ⟨some "TOK", 300⟩ ∧
    get_access_token ⟨some "TOK", 300⟩ 299 none = ⟨.ok "TOK", ⟨some "TOK", 300⟩, false⟩ ∧
    (get_access_token ⟨some "TOK", 300⟩ 301 none).issuedRequest = true := by
  have h := C3_token_cache 0 "TOK" ⟨none, 0⟩ none none rfl (by decide)
  simpa using h

/-!  ## Service-level helper lemmas. -/

/-- A truthy unexpired cached token is returned with no request issued. -/
theorem get_access_token_cached (st : ServiceState) (now : Int) (acq : Option MsalResult)
    (tok : String) (h1 : st.access_token = some tok) (h2 : tok ≠ "")
    (h3 : now < st.token_expiration_time) :
    get_access_token st now acq = ⟨.ok tok, st, false⟩ := by
  unfold get_access_token
  rw [h1]
  simp only
  rw [if_pos ⟨h2, h3⟩]

/-- With a valid cached token and a successful GET, `make_request`
returns the fetched document and logs exactly the endpoint. -/
theorem make_request_ok {α : Type} (env : Env) (endpoint : String) (d : α)
    (fetch : Except String α) (tok : String)
    (h1 : env.state.access_token = some tok) (h2 : tok ≠ "")
    (h3 : env.now < env.state.token_expiration_time) (hf : fetch = .ok d) :
    make_request env endpoint fetch env.state [] = (.ok d, env.state, [endpoint]) := by
  unfold make_request
  rw [get_access_token_cached env.state env.now env.oracle.acquire tok h1 h2 h3, hf]
  simp

/-!  ## Claim C6. -/

/-- C6: with the one-to-many and many-to-many documents fetched
successfully, no one-to-many relationship returned by
`get_entity_one_to_many_relationships` has a referencing entity starting
with `msdyn_` or `adx_`, while `get_entity_many_to_many_relationships`
returns its fetched document exactly as received (no entry removed). -/
theorem C6_relationship_filters (env : Env) (e tok : String)
    (o2mD : OneToManyDoc) (m2mD : ManyToManyDoc)
    (h1 : env.state.access_token = some tok) (h2 : tok ≠ "")
    (h3 : env.now < env.state.token_expiration_time)
    (hO : env.oracle.oneToMany = .ok o2mD) (hM : env.oracle.manyToMany = .ok m2mD) :
    (((svc_get_entity_one_to_many_relationships env e) env.state []).1 =
        .ok (get_entity_one_to_many_shape o2mD) ∧
      ∀ r ∈ (get_entity_one_to_many_shape o2mD).valueD,
        pyStartsWith r.refD "msdyn_" = false ∧ pyStartsWith r.refD "adx_" = false) ∧
    ((svc_get_entity_many_to_many_relationships env e) env.state []).1 = .ok m2mD := by
  refine ⟨⟨?_, ?_⟩, ?_⟩
  · unfold svc_get_entity_one_to_many_relationships SM.bind
    rw [make_request_ok env _ o2mD _ tok h1 h2 h3 hO]
    rfl
  · intro r hr
    rcases o2mD with ⟨val, rest⟩
    cases val with
    | none => simp [get_entity_one_to_many_shape, OneToManyDoc.valueD] at hr
    | some rels =>
      simp only [get_entity_one_to_many_shape, OneToManyDoc.valueD, Option.getD] at hr
      have hcond := (List.mem_filter.mp hr).2
      simp only [Bool.not_eq_true', Bool.or_eq_false_iff] at hcond
      exact hcond
  · unfold svc_get_entity_many_to_many_relationships
    rw [make_request_ok env _ m2mD _ tok h1 h2 h3 hM]

/-- Witness for C6 at a concrete environment. -/
theorem C6_relationship_filters_witness :
    ((svc_get_entity_one_to_many_relationships demoEnvDocs "account") demoEnvDocs.state []).1 =
        .ok (get_entity_one_to_many_shape ⟨some demoO2MRels, []⟩) ∧
    ((svc_get_entity_many_to_many_relationships demoEnvDocs "account") demoEnvDocs.state []).1 =
        .ok ⟨some [⟨some "m1", some "account", some "contact", []⟩], []⟩ := by
  have h := C6_relationship_filters demoEnvDocs "account" "TOK" ⟨some demoO2MRels, []⟩
    ⟨some [⟨some "m1", some "account", some "contact", []⟩], []⟩
    rfl (by decide) (by decide) rfl rfl
  exact ⟨h.1.1, h.2⟩

/-!  ## Claim C9. -/

/-- C9: when the fetched document of a list-returning operation lacks
the `value` array, the operation returns the document unchanged — so the
shaped list (`response.get("value", [])`) is empty — and no error is
raised. -/
theorem C9_missing_value_empty (env : Env) (e tok : String)
    (restA restO : List (String × String))
    (h1 : env.state.access_token = some tok) (h2 : tok ≠ "")
    (h3 : env.now < env.state.token_expiration_time)
    (hA : env.oracle.entityAttributes = .ok ⟨none, restA⟩)
    (hO : env.oracle.oneToMany = .ok ⟨none, restO⟩) :
    (((svc_get_entity_attributes env e) env.state []).1 = .ok ⟨none, restA⟩ ∧
      (AttributesDoc.mk none restA).valueD = []) ∧
    (((svc_get_entity_one_to_many_relationships env e) env.state []).1 = .ok ⟨none, restO⟩ ∧
      (OneToManyDoc.mk none restO).valueD = []) := by
  refine ⟨⟨?_, rfl⟩, ?_, rfl⟩
  · unfold svc_get_entity_attributes SM.bind
    rw [make_request_ok env _ (⟨none, restA⟩ : AttributesDoc) _ tok h1 h2 h3 hA]
    rfl
  · unfold svc_get_entity_one_to_many_relationships SM.bind
    rw [make_request_ok env _ (⟨none, restO⟩ : OneToManyDoc) _ tok h1 h2 h3 hO]
    rfl

/-- Witness for C9 at a concrete environment. -/
theorem C9_missing_value_empty_witness :
    ((svc_get_entity_attributes demoEnvNoValue "account") demoEnvNoValue.state []).1 =
        .ok ⟨none, [("k", "v")]⟩ ∧
    (AttributesDoc.mk none [("k", "v")]).valueD = [] := by
  have h := C9_missing_value_empty demoEnvNoValue "account" "TOK" [("k", "v")] []
    rfl (by decide) (by decide) rfl rfl
  exact h.1

/-!  ## Claim C10. -/

/-- C10: every registered operation returns, on the success path and the
error path alike, a content list with exactly one element whose type
field is the string `text`. -/
theorem C10_single_text_block (t : RegisteredTool) (ht : t ∈ registry)
    (env : Env) (p : Params) :
    (t.run env p).content.length = 1 ∧ ∀ c ∈ (t.run env p).content, c.type = "text" := by
  clear ht
  refine ⟨rfl, ?_⟩
  intro c hc
  simp only [RegisteredTool.run, wrapHandler] at hc
  have hce := List.mem_singleton.mp hc
  rw [hce]

/-- Witness for C10 at a concrete invocation. -/
theorem C10_single_text_block_witness :
    (tool_get_entity_metadata.run demoEnvBad demoParamsEntity).content.length = 1 :=
  (C10_single_text_block tool_get_entity_metadata (by simp [registry])
      demoEnvBad demoParamsEntity).1

/-!  ## Claim C1. -/

/-- The registry lookup finds each registered tool by its name. -/
theorem find_registry_self (t : RegisteredTool) (ht : t ∈ registry) :
    registry.find? (fun u => u.name == t.name) = some t := by
  fin_cases ht <;> rfl

/-- C1: an invocation with an unregistered operation name fails at the
protocol level (an error reply carrying no result), while for a
registered operation any error raised inside the handler body is caught
and turned into a normal result whose single text block is the handler's
failure message. -/
theorem C1_dispatch_policy :
    (∀ fname : String, fname ∉ registry.map RegisteredTool.name →
      ∀ (env : Env) (p : Params) (rid : Option String),
        handle_request env fname p rid = .protocolError ("Unknown function: " ++ fname)) ∧
    (∀ t ∈ registry, ∀ (env : Env) (p : Params) (rid : Option String) (err : String),
      ((t.body env p) env.state []).1 = .error err →
        handle_request env t.name p rid = .result rid ⟨[⟨"text", t.failMsg ++ err⟩]⟩) := by
  constructor
  · intro fname hf env p rid
    unfold handle_request
    have hnone : registry.find? (fun u => u.name == fname) = none := by
      rw [List.find?_eq_none]
      intro u hu hbeq
      exact hf (List.mem_map.mpr ⟨u, hu, eq_of_beq hbeq⟩)
    rw [hnone]
  · intro t ht env p rid err hbody
    unfold handle_request
    rw [find_registry_self t ht]
    simp only [RegisteredTool.run]
    rw [hbody]
    rfl

/-- Witness for C1: an unknown name fails the call, and a known
operation with a missing configuration returns the error-text result. -/
theorem C1_dispatch_policy_witness :
    ("unknown-op" ∉ registry.map RegisteredTool.name ∧
      handle_request demoEnvBad "unknown-op" demoParamsEntity none =
        .protocolError "Unknown function: unknown-op") ∧
    (((tool_get_entity_metadata.body demoEnvBad demoParamsEntity) demoEnvBad.state []).1 =
        .error "Missing PowerPlatform configuration: organization_url, client_id, client_secret, tenant_id. Set these in environment variables." ∧
      handle_request demoEnvBad "get-entity-metadata" demoParamsEntity none =
        .result none ⟨[⟨"text", "Failed to get entity metadata: Missing PowerPlatform configuration: organization_url, client_id, client_secret, tenant_id. Set these in environment variables."⟩]⟩) := by
  have hmem : "unknown-op" ∉ registry.map RegisteredTool.name := by decide
  have hbody : ((tool_get_entity_metadata.body demoEnvBad demoParamsEntity)
      demoEnvBad.state []).1 =
      .error "Missing PowerPlatform configuration: organization_url, client_id, client_secret, tenant_id. Set these in environment variables." := by decide
  refine ⟨⟨hmem, C1_dispatch_policy.1 "unknown-op" hmem demoEnvBad demoParamsEntity none⟩,
    hbody, ?_⟩
  exact C1_dispatch_policy.2 tool_get_entity_metadata (by simp [registry])
    demoEnvBad demoParamsEntity none _ hbody

/-!  ## Claim C7. -/

/-- C7: a known operation invoked without a required argument
(`entityName` for the entity-scoped operations, `attributeName` for
`get-entity-attribute` and for the `ATTRIBUTE_DETAILS` prompt kind)
fails with a validation error, and its outbound-call log is empty (no
token acquisition and no Dataverse request). -/
theorem C7_validation_no_network (env : Env) (p : Params) :
    (p.entityName = none →
      ((tool_get_entity_metadata.body env p) env.state []).1 =
          .error "1 validation error for EntityRequest: entityName field required" ∧
        tool_get_entity_metadata.netLog env p = []) ∧
    (p.entityName = none →
      ((tool_get_entity_attributes.body env p) env.state []).1 =
          .error "1 validation error for EntityRequest: entityName field required" ∧
        tool_get_entity_attributes.netLog env p = []) ∧
    (p.entityName = none →
      ((tool_get_entity_relationships.body env p) env.state []).1 =
          .error "1 validation error for EntityRequest: entityName field required" ∧
        tool_get_entity_relationships.netLog env p = []) ∧
    (p.entityName = none →
      ((tool_get_entity_attribute.body env p) env.state []).1 =
          .error "1 validation error for AttributeRequest: entityName field required" ∧
        tool_get_entity_attribute.netLog env p = []) ∧
    (∀ en, p.entityName = some en → p.attributeName = none →
      ((tool_get_entity_attribute.body env p) env.state []).1 =
          .error "1 validation error for AttributeRequest: attributeName field required" ∧
        tool_get_entity_attribute.netLog env p = []) ∧
    (p.entityName = none →
      (∃ msg, ((tool_use_powerplatform_prompt.body env p) env.state []).1 = .error msg ∧
        pyStartsWith msg "1 validation error for PromptRequest" = true) ∧
        tool_use_powerplatform_prompt.netLog env p = []) ∧
    (∀ en, p.promptType = some "ATTRIBUTE_DETAILS" → p.entityName = some en →
      pyTruthy p.attributeName = false → configMissing env.config = [] →
      ((tool_use_powerplatform_prompt.body env p) env.state []).1 =
          .error "attributeName is required for ATTRIBUTE_DETAILS prompt" ∧
        tool_use_powerplatform_prompt.netLog env p = []) := by
  refine ⟨fun hp => ?_, fun hp => ?_, fun hp => ?_, fun hp => ?_,
    fun en hen ha => ?_, fun hp => ?_, fun en hpt hen hattr hcfg => ?_⟩
  · constructor <;>
      simp [tool_get_entity_metadata, body_get_entity_metadata, RegisteredTool.netLog,
        SM.bind, SM.liftE, parseEntityRequest, hp]
  · constructor <;>
      simp [tool_get_entity_attributes, body_get_entity_attributes, RegisteredTool.netLog,
        SM.bind, SM.liftE, parseEntityRequest, hp]
  · constructor <;>
      simp [tool_get_entity_relationships, body_get_entity_relationships,
        RegisteredTool.netLog, SM.bind, SM.liftE, parseEntityRequest, hp]
  · constructor <;>
      simp [tool_get_entity_attribute, body_get_entity_attribute, RegisteredTool.netLog,
        SM.bind, SM.liftE, parseAttributeRequest, hp]
  · constructor <;>
      simp [tool_get_entity_attribute, body_get_entity_attribute, RegisteredTool.netLog,
        SM.bind, SM.liftE, parseAttributeRequest, hen, ha]
  · cases hptype : p.promptType with
    | none =>
      refine ⟨⟨"1 validation error for PromptRequest: promptType field required",
        ?_, by decide⟩, ?_⟩ <;>
        simp [tool_use_powerplatform_prompt, body_use_powerplatform_prompt,
          RegisteredTool.netLog, SM.bind, SM.liftE, parsePromptRequest, hptype]
    | some s =>
      cases hval : parsePromptType s with
      | none =>
        refine ⟨⟨"1 validation error for PromptRequest: promptType is not a valid enumeration member",
          ?_, by decide⟩, ?_⟩ <;>
          simp [tool_use_powerplatform_prompt, body_use_powerplatform_prompt,
            RegisteredTool.netLog, SM.bind, SM.liftE, parsePromptRequest, hptype, hval]
      | some pt =>
        refine ⟨⟨"1 validation error for PromptRequest: entityName field required",
          ?_, by decide⟩, ?_⟩ <;>
          simp [tool_use_powerplatform_prompt, body_use_powerplatform_prompt,
            RegisteredTool.netLog, SM.bind, SM.liftE, parsePromptRequest, hptype, hval, hp]
  · constructor <;>
      simp [tool_use_powerplatform_prompt, body_use_powerplatform_prompt,
        RegisteredTool.netLog, SM.bind, SM.liftE, SM.throw, parsePromptRequest,
        parsePromptType, get_powerplatform_service, hpt, hen, hattr, hcfg]

/-- Witness for C7: a missing `entityName` and a missing prompt
`attributeName` both fail without any outbound call. -/
theorem C7_validation_no_network_witness :
    (((tool_get_entity_metadata.body demoEnvGood demoParamsEmpty)
        demoEnvGood.state []).1 =
      .error "1 validation error for EntityRequest: entityName field required" ∧
      tool_get_entity_metadata.netLog demoEnvGood demoParamsEmpty = []) ∧
    (((tool_use_powerplatform_prompt.body demoEnvGood demoParamsAttrPrompt)
        demoEnvGood.state []).1 =
      .error "attributeName is required for ATTRIBUTE_DETAILS prompt" ∧
      tool_use_powerplatform_prompt.netLog demoEnvGood demoParamsAttrPrompt = []) :=
  ⟨(C7_validation_no_network demoEnvGood demoParamsEmpty).1 rfl,
    (C7_validation_no_network demoEnvGood demoParamsAttrPrompt).2.2.2.2.2.2 "account"
      rfl rfl rfl rfl⟩

/-!  ## Claim C8 (code bug).

The Python templates are f-strings, so their doubled braces emit
*single-braced* tokens (`\x7bentity_details\x7d`), while the replacement
keys are *double-braced* literals (`\x7b\x7bentity_details\x7d\x7d`).
The keys therefore never occur in the template and the substitution loop
is a no-op: the rendered `ENTITY_OVERVIEW` output is the template
verbatim, with its placeholder text left unfilled. -/

set_option maxRecDepth 40000

/-- C8: evaluating `ENTITY_OVERVIEW` rendering at a concrete input shows
the substitution never fires: the rendered output equals the raw
template, still contains the unfilled single-braced token
`\x7bentity_details\x7d`, never contained a double-braced key to
replace, and the full prompt handler returns exactly the raw template
text. -/
theorem C8_placeholders_never_substituted :
    render_entity_overview "account" "DETAILS" "ATTRS" "RELS" =
      prompt_entity_overview "account" ∧
    strContains (prompt_entity_overview "account") "\x7bentity_details\x7d" = true ∧
    strContains (prompt_entity_overview "account") "\x7b\x7bentity_details\x7d\x7d" = false ∧
    ((tool_use_powerplatform_prompt.body demoEnvOverview demoParamsOverview)
        demoEnvOverview.state []).1 = .ok (prompt_entity_overview "account") :=
  ⟨by decide, by decide, by decide, by decide⟩
